import Mathlib

/-!
Shallow embedding of `src/sample.py`, an e-waste image-analysis script.

The script declares four string enumerations (`ObjectCategory`,
`ConditionStatus`, `ShredSafety`, `ProcessingMethod`), two pydantic models
(`HazardousComponents`, `EWasteAnalysis`), a JSON-schema builder
(`create_analysis_schema`), an analysis entry point (`analyze_ewaste`,
whose pure part is prompt resolution and record construction from the
model's JSON reply), and a report renderer (`generate_processing_report`).

Conventions of the embedding:
* Python `float` for `confidence_score` is modelled as `ℚ`.
* JSON values are the inductive `Json`; `json.loads` output is a `Json`
  value, and pydantic construction `EWasteAnalysis(**d)` is the fallible
  `EWasteAnalysis.fromJson?` (a `ValidationError` is `none`).
* The filesystem seen by `analyze_ewaste` is a map `String → Option String`
  from paths to file contents; `open` raising `FileNotFoundError` is the
  `none` case.
* `datetime.now().strftime(...)` is an explicit `now : String` parameter of
  the report renderer.
* The source file stores its decorative characters in a double-encoded
  (mojibake) form; the string literals below reproduce the file's decoded
  characters exactly, via `\u` escapes.
-/

/-- The `ObjectCategory(str, Enum)` class, `src/sample.py` lines 14-61,
constructors in Python declaration order. -/
inductive ObjectCategory where
  | SMARTPHONE
  | TABLET
  | LAPTOP
  | DESKTOP_COMPUTER
  | MONITOR
  | TELEVISION
  | GAMING_CONSOLE
  | SMARTWATCH
  | EARBUDS
  | CAMERA
  | CIRCUIT_BOARD
  | HARD_DRIVE
  | RAM
  | PROCESSOR
  | GRAPHICS_CARD
  | POWER_SUPPLY
  | SSD
  | MOTHERBOARD
  | LITHIUM_BATTERY
  | ALKALINE_BATTERY
  | LEAD_ACID_BATTERY
  | BUTTON_BATTERY
  | LAPTOP_BATTERY
  | PHONE_BATTERY
  | CABLES
  | CHARGER
  | KEYBOARD
  | MOUSE
  | USB_DEVICE
  | PRINTER
  | SCANNER
  | ROUTER
  | SPEAKER
  | MICROWAVE
  | MIXED_EWASTE
  | UNKNOWN
deriving DecidableEq

/-- The string value of each `ObjectCategory` member, as in the source. -/
def ObjectCategory.value : ObjectCategory → String
  | .SMARTPHONE => "Smartphone"
  | .TABLET => "Tablet"
  | .LAPTOP => "Laptop"
  | .DESKTOP_COMPUTER => "Desktop Computer"
  | .MONITOR => "Monitor"
  | .TELEVISION => "Television"
  | .GAMING_CONSOLE => "Gaming Console"
  | .SMARTWATCH => "Smartwatch"
  | .EARBUDS => "Earbuds/Headphones"
  | .CAMERA => "Digital Camera"
  | .CIRCUIT_BOARD => "Circuit Board"
  | .HARD_DRIVE => "Hard Drive"
  | .RAM => "RAM Module"
  | .PROCESSOR => "CPU/Processor"
  | .GRAPHICS_CARD => "Graphics Card"
  | .POWER_SUPPLY => "Power Supply Unit"
  | .SSD => "Solid State Drive"
  | .MOTHERBOARD => "Motherboard"
  | .LITHIUM_BATTERY => "Lithium-ion Battery"
  | .ALKALINE_BATTERY => "Alkaline Battery"
  | .LEAD_ACID_BATTERY => "Lead-acid Battery"
  | .BUTTON_BATTERY => "Button Cell Battery"
  | .LAPTOP_BATTERY => "Laptop Battery Pack"
  | .PHONE_BATTERY => "Phone Battery"
  | .CABLES => "Cables/Wires"
  | .CHARGER => "Charger/Adapter"
  | .KEYBOARD => "Keyboard"
  | .MOUSE => "Mouse"
  | .USB_DEVICE => "USB Device/Flash Drive"
  | .PRINTER => "Printer"
  | .SCANNER => "Scanner"
  | .ROUTER => "Router/Modem"
  | .SPEAKER => "Speaker System"
  | .MICROWAVE => "Microwave"
  | .MIXED_EWASTE => "Mixed E-waste"
  | .UNKNOWN => "Unknown Device"

/-- Iteration order of the Python enum: declaration order. -/
def ObjectCategory.members : List ObjectCategory :=
  [.SMARTPHONE, .TABLET, .LAPTOP, .DESKTOP_COMPUTER, .MONITOR, .TELEVISION,
   .GAMING_CONSOLE, .SMARTWATCH, .EARBUDS, .CAMERA, .CIRCUIT_BOARD,
   .HARD_DRIVE, .RAM, .PROCESSOR, .GRAPHICS_CARD, .POWER_SUPPLY, .SSD,
   .MOTHERBOARD, .LITHIUM_BATTERY, .ALKALINE_BATTERY, .LEAD_ACID_BATTERY,
   .BUTTON_BATTERY, .LAPTOP_BATTERY, .PHONE_BATTERY, .CABLES, .CHARGER,
   .KEYBOARD, .MOUSE, .USB_DEVICE, .PRINTER, .SCANNER, .ROUTER, .SPEAKER,
   .MICROWAVE, .MIXED_EWASTE, .UNKNOWN]

/-- Enum lookup by value, as pydantic performs when validating a
`(str, Enum)` field from a JSON string. -/
def ObjectCategory.fromValue? (s : String) : Option ObjectCategory :=
  ObjectCategory.members.find? fun e => e.value == s

/-- The `ConditionStatus(str, Enum)` class, lines 63-69. -/
inductive ConditionStatus where
  | INTACT
  | BROKEN
  | PARTIALLY_DAMAGED
  | SEVERELY_DAMAGED
  | BURNED
  | WATER_DAMAGED
deriving DecidableEq

/-- String value of each `ConditionStatus` member. -/
def ConditionStatus.value : ConditionStatus → String
  | .INTACT => "Intact"
  | .BROKEN => "Broken"
  | .PARTIALLY_DAMAGED => "Partially Damaged"
  | .SEVERELY_DAMAGED => "Severely Damaged"
  | .BURNED => "Burned/Melted"
  | .WATER_DAMAGED => "Water Damaged"

/-- Iteration order of `ConditionStatus`. -/
def ConditionStatus.members : List ConditionStatus :=
  [.INTACT, .BROKEN, .PARTIALLY_DAMAGED, .SEVERELY_DAMAGED, .BURNED,
   .WATER_DAMAGED]

/-- Enum lookup by value for `ConditionStatus`. -/
def ConditionStatus.fromValue? (s : String) : Option ConditionStatus :=
  ConditionStatus.members.find? fun e => e.value == s

/-- The `ShredSafety(str, Enum)` class, lines 71-74. -/
inductive ShredSafety where
  | SAFE_TO_SHRED
  | DO_NOT_SHRED
  | REQUIRES_PREPROCESSING
deriving DecidableEq

/-- String value of each `ShredSafety` member. -/
def ShredSafety.value : ShredSafety → String
  | .SAFE_TO_SHRED => "Safe to Shred"
  | .DO_NOT_SHRED => "Do Not Shred"
  | .REQUIRES_PREPROCESSING => "Requires Preprocessing Before Shredding"

/-- Iteration order of `ShredSafety`. -/
def ShredSafety.members : List ShredSafety :=
  [.SAFE_TO_SHRED, .DO_NOT_SHRED, .REQUIRES_PREPROCESSING]

/-- Enum lookup by value for `ShredSafety`. -/
def ShredSafety.fromValue? (s : String) : Option ShredSafety :=
  ShredSafety.members.find? fun e => e.value == s

/-- The `ProcessingMethod(str, Enum)` class, lines 76-82. -/
inductive ProcessingMethod where
  | SHRED
  | MANUAL_DISASSEMBLY
  | BATTERY_REMOVAL
  | DATA_DESTRUCTION
  | SPECIALIZED_RECYCLING
  | HAZMAT_HANDLING
deriving DecidableEq

/-- String value of each `ProcessingMethod` member. -/
def ProcessingMethod.value : ProcessingMethod → String
  | .SHRED => "Shred"
  | .MANUAL_DISASSEMBLY => "Manual Disassembly"
  | .BATTERY_REMOVAL => "Battery Removal Required"
  | .DATA_DESTRUCTION => "Data Destruction Required"
  | .SPECIALIZED_RECYCLING => "Specialized Recycling"
  | .HAZMAT_HANDLING => "Hazardous Material Handling"

/-- Iteration order of `ProcessingMethod`. -/
def ProcessingMethod.members : List ProcessingMethod :=
  [.SHRED, .MANUAL_DISASSEMBLY, .BATTERY_REMOVAL, .DATA_DESTRUCTION,
   .SPECIALIZED_RECYCLING, .HAZMAT_HANDLING]

/-- Enum lookup by value for `ProcessingMethod`. -/
def ProcessingMethod.fromValue? (s : String) : Option ProcessingMethod :=
  ProcessingMethod.members.find? fun e => e.value == s

/-- JSON values, the shape of `json.loads(response.text)`. Numbers are
modelled as rationals (`confidence_score` is the only numeric field). -/
inductive Json where
  | null
  | bool (b : Bool)
  | num (q : ℚ)
  | str (s : String)
  | arr (elems : List Json)
  | obj (fields : List (String × Json))

/-- Key lookup in a JSON object (Python dict access; keys are unique in a
dict, so first match suffices). -/
def Json.lookup (j : Json) (k : String) : Option Json :=
  match j with
  | .obj fields => (fields.find? fun kv => kv.1 == k).map fun kv => kv.2
  | _ => none

/-- Lookup along a path of keys through nested JSON objects. -/
def Json.lookupPath (j : Json) : List String → Option Json
  | [] => some j
  | k :: ks =>
    match j.lookup k with
    | some v => v.lookupPath ks
    | none => none

/-- Extract a JSON string. -/
def Json.asStr? : Json → Option String
  | .str s => some s
  | _ => none

/-- Extract a JSON boolean. -/
def Json.asBool? : Json → Option Bool
  | .bool b => some b
  | _ => none

/-- Extract a JSON number. -/
def Json.asNum? : Json → Option ℚ
  | .num q => some q
  | _ => none

/-- A required string field: missing key or non-string value is a
validation failure. -/
def getReqStr (j : Json) (k : String) : Option String :=
  (j.lookup k).bind Json.asStr?

/-- A required numeric field. -/
def getReqNum (j : Json) (k : String) : Option ℚ :=
  (j.lookup k).bind Json.asNum?

/-- A required boolean field. -/
def getReqBool (j : Json) (k : String) : Option Bool :=
  (j.lookup k).bind Json.asBool?

/-- An `Optional[str] = None` field: absent key or JSON null yields `none`;
a string yields the string; any other value is a validation failure. -/
def getOptStr (j : Json) (k : String) : Option (Option String) :=
  match j.lookup k with
  | none => some none
  | some .null => some none
  | some (.str s) => some (some s)
  | some _ => none

/-- Convert a list of JSON values to strings, failing on a non-string. -/
def strList? : List Json → Option (List String)
  | [] => some []
  | x :: xs => (x.asStr?).bind fun s => (strList? xs).map fun rest => s :: rest

/-- A `List[str]` field with `default_factory=list`: absent key yields the
empty list; an array of strings yields those strings; anything else is a
validation failure. -/
def getStrList (j : Json) (k : String) : Option (List String) :=
  match j.lookup k with
  | none => some []
  | some (.arr xs) => strList? xs
  | some _ => none

/-- The `HazardousComponents` pydantic model, lines 85-91: six required
boolean flags. -/
structure HazardousComponents where
  has_battery : Bool
  has_mercury : Bool
  has_lead : Bool
  has_capacitors : Bool
  has_toner : Bool
  has_data_storage : Bool
deriving DecidableEq

/-- Validating construction of `HazardousComponents` from JSON
(pydantic nested-model validation). -/
def HazardousComponents.fromJson? (j : Json) : Option HazardousComponents :=
  Option.bind (getReqBool j "has_battery") fun b1 =>
  Option.bind (getReqBool j "has_mercury") fun b2 =>
  Option.bind (getReqBool j "has_lead") fun b3 =>
  Option.bind (getReqBool j "has_capacitors") fun b4 =>
  Option.bind (getReqBool j "has_toner") fun b5 =>
  Option.map (fun b6 =>
    { has_battery := b1, has_mercury := b2, has_lead := b3,
      has_capacitors := b4, has_toner := b5, has_data_storage := b6 })
    (getReqBool j "has_data_storage")

/-- The `EWasteAnalysis` pydantic model, lines 93-119. Fields in Python
declaration order; `brand`/`model` default to `None`,
`safety_notes`/`preprocessing_steps` default to `[]`, everything else is
required. `confidence_score` carries no range constraint in the model. -/
structure EWasteAnalysis where
  object_type : ObjectCategory
  brand : Option String
  model : Option String
  condition : ConditionStatus
  shred_safety : ShredSafety
  safety_notes : List String
  primary_processing : ProcessingMethod
  preprocessing_steps : List String
  processing_notes : String
  hazardous_components : HazardousComponents
  disposal_category : String
  observations : String
  confidence_score : ℚ
deriving DecidableEq

/-- Validating construction `EWasteAnalysis(**result_dict)` (line 248):
pydantic checks each field in declaration order; a missing required field
or a type/enum mismatch raises `ValidationError`, here `none`. -/
def EWasteAnalysis.fromJson? (j : Json) : Option EWasteAnalysis :=
  Option.bind ((getReqStr j "object_type").bind ObjectCategory.fromValue?) fun ot =>
  Option.bind (getOptStr j "brand") fun br =>
  Option.bind (getOptStr j "model") fun md =>
  Option.bind ((getReqStr j "condition").bind ConditionStatus.fromValue?) fun cond =>
  Option.bind ((getReqStr j "shred_safety").bind ShredSafety.fromValue?) fun ss =>
  Option.bind (getStrList j "safety_notes") fun sn =>
  Option.bind ((getReqStr j "primary_processing").bind ProcessingMethod.fromValue?) fun pm =>
  Option.bind (getStrList j "preprocessing_steps") fun ps =>
  Option.bind (getReqStr j "processing_notes") fun pn =>
  Option.bind ((j.lookup "hazardous_components").bind HazardousComponents.fromJson?) fun hz =>
  Option.bind (getReqStr j "disposal_category") fun dc =>
  Option.bind (getReqStr j "observations") fun obs =>
  Option.map (fun cs =>
    { object_type := ot, brand := br, model := md, condition := cond,
      shred_safety := ss, safety_notes := sn, primary_processing := pm,
      preprocessing_steps := ps, processing_notes := pn,
      hazardous_components := hz, disposal_category := dc,
      observations := obs, confidence_score := cs })
    (getReqNum j "confidence_score")

/-- JSON encoding of an optional string (absent value sent as null). -/
def jsonOfOptStr : Option String → Json
  | none => Json.null
  | some s => Json.str s

/-- JSON object carrying the six hazard flags. -/
def HazardousComponents.toJson (h : HazardousComponents) : Json :=
  Json.obj [("has_battery", .bool h.has_battery),
            ("has_mercury", .bool h.has_mercury),
            ("has_lead", .bool h.has_lead),
            ("has_capacitors", .bool h.has_capacitors),
            ("has_toner", .bool h.has_toner),
            ("has_data_storage", .bool h.has_data_storage)]

/-- A well-formed response object: every declared field present with a
value of its declared type (enum labels from the closed sets, booleans for
the hazard flags, strings and string arrays where declared, a number for
`confidence_score`), keys in schema order. -/
def canonObj (ot : ObjectCategory) (br md : Option String)
    (cond : ConditionStatus) (ss : ShredSafety) (sn : List String)
    (pm : ProcessingMethod) (ps : List String) (pn : String)
    (hz : HazardousComponents) (dc obs : String) (cs : ℚ) : Json :=
  Json.obj [("object_type", .str ot.value),
            ("brand", jsonOfOptStr br),
            ("model", jsonOfOptStr md),
            ("condition", .str cond.value),
            ("shred_safety", .str ss.value),
            ("safety_notes", .arr (sn.map Json.str)),
            ("primary_processing", .str pm.value),
            ("preprocessing_steps", .arr (ps.map Json.str)),
            ("processing_notes", .str pn),
            ("hazardous_components", hz.toJson),
            ("disposal_category", .str dc),
            ("observations", .str obs),
            ("confidence_score", .num cs)]

/-- The list of required top-level fields declared by the schema,
`src/sample.py` lines 197-199. -/
def requiredFields : List String :=
  ["object_type", "condition", "shred_safety", "primary_processing",
   "processing_notes", "hazardous_components", "disposal_category",
   "observations", "confidence_score"]

/-- `create_analysis_schema` (lines 122-200): the JSON schema handed to the
model API. Enum lists are built from the enum tables exactly as the
source's list comprehensions do; `confidence_score` is declared as a bare
number, with the 0-1 bound mentioned only in its description text. -/
def createAnalysisSchema : Json :=
  Json.obj
    [("type", .str "object"),
     ("properties", Json.obj
       [("object_type", Json.obj
          [("type", .str "string"),
           ("enum", .arr (ObjectCategory.members.map fun e => .str e.value)),
           ("description", .str "Type of electronic waste")]),
        ("brand", Json.obj
          [("type", .str "string"),
           ("description", .str "Brand name if visible"),
           ("nullable", .bool true)]),
        ("model", Json.obj
          [("type", .str "string"),
           ("description", .str "Model number if visible"),
           ("nullable", .bool true)]),
        ("condition", Json.obj
          [("type", .str "string"),
           ("enum", .arr (ConditionStatus.members.map fun e => .str e.value)),
           ("description", .str "Physical condition of the item")]),
        ("shred_safety", Json.obj
          [("type", .str "string"),
           ("enum", .arr (ShredSafety.members.map fun e => .str e.value)),
           ("description", .str "Whether item is safe to shred")]),
        ("safety_notes", Json.obj
          [("type", .str "array"),
           ("items", Json.obj [("type", .str "string")]),
           ("description", .str "Specific safety concerns")]),
        ("primary_processing", Json.obj
          [("type", .str "string"),
           ("enum", .arr (ProcessingMethod.members.map fun e => .str e.value)),
           ("description", .str "Primary processing method")]),
        ("preprocessing_steps", Json.obj
          [("type", .str "array"),
           ("items", Json.obj [("type", .str "string")]),
           ("description", .str "Required preprocessing steps")]),
        ("processing_notes", Json.obj
          [("type", .str "string"),
           ("description", .str "Detailed processing instructions")]),
        ("hazardous_components", Json.obj
          [("type", .str "object"),
           ("properties", Json.obj
             [("has_battery", Json.obj [("type", .str "boolean")]),
              ("has_mercury", Json.obj [("type", .str "boolean")]),
              ("has_lead", Json.obj [("type", .str "boolean")]),
              ("has_capacitors", Json.obj [("type", .str "boolean")]),
              ("has_toner", Json.obj [("type", .str "boolean")]),
              ("has_data_storage", Json.obj [("type", .str "boolean")])]),
           ("required", .arr
             [.str "has_battery", .str "has_mercury", .str "has_lead",
              .str "has_capacitors", .str "has_toner",
              .str "has_data_storage"])]),
        ("disposal_category", Json.obj
          [("type", .str "string"),
           ("description", .str "Sorting category for disposal")]),
        ("observations", Json.obj
          [("type", .str "string"),
           ("description", .str "Additional observations")]),
        ("confidence_score", Json.obj
          [("type", .str "number"),
           ("description", .str "Confidence score between 0 and 1")])]),
     ("required", .arr (requiredFields.map Json.str))]

/-- The hardcoded fallback prompt of `analyze_ewaste` (lines 225-232),
used when the prompt file cannot be opened. -/
def defaultPrompt : String :=
  "You are an expert E-waste Safety Analyzer. Analyze the image and identify:\n        1. The type of electronic device\n        2. Its condition\n        3. Whether it's safe to shred\n        4. Any hazardous components\n        5. Processing instructions\n        \n        Focus on safety and provide clear guidance."

/-- Prompt resolution of `analyze_ewaste` (lines 214-232): read the prompt
file and, when `additional_context` is truthy (non-empty), append it; on
`FileNotFoundError` fall back to `defaultPrompt` — note the append sits
inside the `try`, so the fallback path never appends the context. The
resulting string is the prompt submitted to the model (line 239). -/
def resolvePrompt (fs : String → Option String) (promptFile : String)
    (additionalContext : String) : String :=
  match fs promptFile with
  | some content =>
      if additionalContext = "" then content
      else content ++ "\n\nAdditional context: " ++ additionalContext
  | none => defaultPrompt

/-- Decimal digit character. -/
def digitChar : Nat → Char
  | 0 => '0' | 1 => '1' | 2 => '2' | 3 => '3' | 4 => '4'
  | 5 => '5' | 6 => '6' | 7 => '7' | 8 => '8' | _ => '9'

/-- Digit expansion of a positive natural, most significant first; the
first argument is fuel (any bound on the digit count). -/
def natDigits : Nat → Nat → List Char
  | 0, _ => []
  | fuel + 1, n =>
    if n = 0 then [] else natDigits fuel (n / 10) ++ [digitChar (n % 10)]

/-- Decimal rendering of a natural number. -/
def natToStr (n : Nat) : String :=
  if n = 0 then "0" else String.mk (natDigits (n + 1) n)

/-- Python `format(q, ".1%")`: the value scaled by 100, rounded to one
decimal digit with ties to even, a decimal point, and a percent sign.
Computed on `num`/`den` so the arithmetic is integer-only. -/
def formatPct1 (q : ℚ) : String :=
  let num := q.num * 1000
  let den := (q.den : ℤ)
  let f := Int.fdiv num den
  let r := num - f * den
  let n := if 2 * r < den then f
           else if den < 2 * r then f + 1
           else if f % 2 = 0 then f else f + 1
  let m := n.natAbs
  (if n < 0 then "-" else "") ++ natToStr (m / 10) ++ "." ++ natToStr (m % 10) ++ "%"

/-- Python `x or d` applied to an optional string: `None` and `""` are
falsy, so both collapse to the default. -/
def pyOrStr : Option String → String → String
  | none, d => d
  | some s, d => if s = "" then d else s

/-- Hazard-flag marker (line 286): a warning marker with `YES`, or a check
marker with `No`. -/
def yesNo (b : Bool) : String :=
  if b then "\u00e2\u0161\u00a0\u00ef\u00b8 YES" else "\u00e2\u0153\u201c No"

/-- The six hazard lines of the report (lines 286-291), in order. -/
def hazardLines (h : HazardousComponents) : List String :=
  ["Battery: " ++ yesNo h.has_battery,
   "Mercury: " ++ yesNo h.has_mercury,
   "Lead: " ++ yesNo h.has_lead,
   "Capacitors: " ++ yesNo h.has_capacitors,
   "Toner/Ink: " ++ yesNo h.has_toner,
   "Data Storage: " ++ yesNo h.has_data_storage]

/-- The hazard block of the report: the six lines joined by newlines. -/
def hazardSection (h : HazardousComponents) : String :=
  String.intercalate "\n" (hazardLines h)

/-- The optional safety-concerns block (lines 278-281): nothing when the
note list is empty (Python falsiness), else a header plus one marked line
per note. -/
def safetyBlock (notes : List String) : String :=
  if notes.isEmpty then ""
  else "\nSafety Concerns:\n" ++
    String.join (notes.map fun n => "  \u00e2\u0161\u00a1 " ++ n ++ "\n")

/-- Numbered preprocessing lines, `enumerate(steps, 1)` (line 303). -/
def numberedSteps : Nat → List String → String
  | _, [] => ""
  | i, s :: rest => "  " ++ natToStr i ++ ". " ++ s ++ "\n" ++ numberedSteps (i + 1) rest

/-- The optional preprocessing block (lines 301-304). -/
def preprocBlock (steps : List String) : String :=
  if steps.isEmpty then ""
  else "\nPreprocessing Required:\n" ++ numberedSteps 1 steps

/-- The report header up to the timestamp interpolation (lines 258-261). -/
def reportHeaderA : String :=
  "\n\u00e2\u2022\u201d\u00e2\u2022\u00e2\u2022\u00e2\u2022\u00e2\u2022\u00e2\u2022\u00e2\u2022\u00e2\u2022\u00e2\u2022\u00e2\u2022\u00e2\u2022\u00e2\u2022\u00e2\u2022\u00e2\u2022\u00e2\u2022\u00e2\u2022\u00e2\u2022\u00e2\u2022\u00e2\u2022\u00e2\u2022\u00e2\u2022\u00e2\u2022\u00e2\u2022\u00e2\u2022\u00e2\u2022\u00e2\u2022\u00e2\u2022\u00e2\u2022\u00e2\u2022\u00e2\u2022\u00e2\u2022\u00e2\u2022\u00e2\u2022\u00e2\u2022\u00e2\u2022\u00e2\u2022\u00e2\u2022\u00e2\u2022\u00e2\u2022\u00e2\u2022\u00e2\u2022\u00e2\u2022\u00e2\u2022\u00e2\u2022\u00e2\u2022\u00e2\u2022\u00e2\u2022\u00e2\u2022\u00e2\u2022\u00e2\u2022\u00e2\u2022\u00e2\u2022\u00e2\u2022\u00e2\u2022\u00e2\u2022\u00e2\u2022\u00e2\u2022\u00e2\u2022\u00e2\u2022\u00e2\u2022\u00e2\u2022\u00e2\u2022\u2014\n\u00e2\u2022\u2018          E-WASTE SAFETY & PROCESSING REPORT               \u00e2\u2022\u2018\n\u00e2\u2022\u2018                "

/-- The report text between the timestamp and the `Type:` value
(lines 261-266). -/
def reportHeaderB : String :=
  "                     \u00e2\u2022\u2018\n\u00e2\u2022\u0161\u00e2\u2022\u00e2\u2022\u00e2\u2022\u00e2\u2022\u00e2\u2022\u00e2\u2022\u00e2\u2022\u00e2\u2022\u00e2\u2022\u00e2\u2022\u00e2\u2022\u00e2\u2022\u00e2\u2022\u00e2\u2022\u00e2\u2022\u00e2\u2022\u00e2\u2022\u00e2\u2022\u00e2\u2022\u00e2\u2022\u00e2\u2022\u00e2\u2022\u00e2\u2022\u00e2\u2022\u00e2\u2022\u00e2\u2022\u00e2\u2022\u00e2\u2022\u00e2\u2022\u00e2\u2022\u00e2\u2022\u00e2\u2022\u00e2\u2022\u00e2\u2022\u00e2\u2022\u00e2\u2022\u00e2\u2022\u00e2\u2022\u00e2\u2022\u00e2\u2022\u00e2\u2022\u00e2\u2022\u00e2\u2022\u00e2\u2022\u00e2\u2022\u00e2\u2022\u00e2\u2022\u00e2\u2022\u00e2\u2022\u00e2\u2022\u00e2\u2022\u00e2\u2022\u00e2\u2022\u00e2\u2022\u00e2\u2022\u00e2\u2022\u00e2\u2022\u00e2\u2022\u00e2\u2022\u00e2\u2022\u00e2\u2022\n\n\u011f\u0178\u201c\u00a6 ITEM IDENTIFICATION\n\u00e2\u201d\u00e2\u201d\u00e2\u201d\u00e2\u201d\u00e2\u201d\u00e2\u201d\u00e2\u201d\u00e2\u201d\u00e2\u201d\u00e2\u201d\u00e2\u201d\u00e2\u201d\u00e2\u201d\u00e2\u201d\u00e2\u201d\u00e2\u201d\u00e2\u201d\u00e2\u201d\u00e2\u201d\u00e2\u201d\u00e2\u201d\u00e2\u201d\u00e2\u201d\u00e2\u201d\u00e2\u201d\u00e2\u201d\u00e2\u201d\u00e2\u201d\u00e2\u201d\u00e2\u201d\u00e2\u201d\u00e2\u201d\u00e2\u201d\u00e2\u201d\u00e2\u201d\u00e2\u201d\u00e2\u201d\u00e2\u201d\u00e2\u201d\u00e2\u201d\u00e2\u201d\u00e2\u201d\u00e2\u201d\u00e2\u201d\u00e2\u201d\u00e2\u201d\u00e2\u201d\u00e2\u201d\u00e2\u201d\u00e2\u201d\u00e2\u201d\u00e2\u201d\u00e2\u201d\u00e2\u201d\u00e2\u201d\u00e2\u201d\nType: "

/-- Section break between the identification block and the safety
assessment (lines 271-274). -/
def sectionSafety : String :=
  "\n\n\u00e2\u0161\u00a0\u00ef\u00b8  SAFETY ASSESSMENT\n\u00e2\u201d\u00e2\u201d\u00e2\u201d\u00e2\u201d\u00e2\u201d\u00e2\u201d\u00e2\u201d\u00e2\u201d\u00e2\u201d\u00e2\u201d\u00e2\u201d\u00e2\u201d\u00e2\u201d\u00e2\u201d\u00e2\u201d\u00e2\u201d\u00e2\u201d\u00e2\u201d\u00e2\u201d\u00e2\u201d\u00e2\u201d\u00e2\u201d\u00e2\u201d\u00e2\u201d\u00e2\u201d\u00e2\u201d\u00e2\u201d\u00e2\u201d\u00e2\u201d\u00e2\u201d\u00e2\u201d\u00e2\u201d\u00e2\u201d\u00e2\u201d\u00e2\u201d\u00e2\u201d\u00e2\u201d\u00e2\u201d\u00e2\u201d\u00e2\u201d\u00e2\u201d\u00e2\u201d\u00e2\u201d\u00e2\u201d\u00e2\u201d\u00e2\u201d\u00e2\u201d\u00e2\u201d\u00e2\u201d\u00e2\u201d\u00e2\u201d\u00e2\u201d\u00e2\u201d\u00e2\u201d\u00e2\u201d\u00e2\u201d\nShred Safety: "

/-- Header of the hazardous-components block (lines 283-285). -/
def hazardHeader : String :=
  "\n\u00e2\u02dc\u00a3\u00ef\u00b8  HAZARDOUS COMPONENTS\n\u00e2\u201d\u00e2\u201d\u00e2\u201d\u00e2\u201d\u00e2\u201d\u00e2\u201d\u00e2\u201d\u00e2\u201d\u00e2\u201d\u00e2\u201d\u00e2\u201d\u00e2\u201d\u00e2\u201d\u00e2\u201d\u00e2\u201d\u00e2\u201d\u00e2\u201d\u00e2\u201d\u00e2\u201d\u00e2\u201d\u00e2\u201d\u00e2\u201d\u00e2\u201d\u00e2\u201d\u00e2\u201d\u00e2\u201d\u00e2\u201d\u00e2\u201d\u00e2\u201d\u00e2\u201d\u00e2\u201d\u00e2\u201d\u00e2\u201d\u00e2\u201d\u00e2\u201d\u00e2\u201d\u00e2\u201d\u00e2\u201d\u00e2\u201d\u00e2\u201d\u00e2\u201d\u00e2\u201d\u00e2\u201d\u00e2\u201d\u00e2\u201d\u00e2\u201d\u00e2\u201d\u00e2\u201d\u00e2\u201d\u00e2\u201d\u00e2\u201d\u00e2\u201d\u00e2\u201d\u00e2\u201d\u00e2\u201d\u00e2\u201d\n"

/-- Section break between the hazard block and the processing
instructions (lines 292-295). -/
def sectionProcessing : String :=
  "\n\n\u011f\u0178\u201d\u00a7 PROCESSING INSTRUCTIONS\n\u00e2\u201d\u00e2\u201d\u00e2\u201d\u00e2\u201d\u00e2\u201d\u00e2\u201d\u00e2\u201d\u00e2\u201d\u00e2\u201d\u00e2\u201d\u00e2\u201d\u00e2\u201d\u00e2\u201d\u00e2\u201d\u00e2\u201d\u00e2\u201d\u00e2\u201d\u00e2\u201d\u00e2\u201d\u00e2\u201d\u00e2\u201d\u00e2\u201d\u00e2\u201d\u00e2\u201d\u00e2\u201d\u00e2\u201d\u00e2\u201d\u00e2\u201d\u00e2\u201d\u00e2\u201d\u00e2\u201d\u00e2\u201d\u00e2\u201d\u00e2\u201d\u00e2\u201d\u00e2\u201d\u00e2\u201d\u00e2\u201d\u00e2\u201d\u00e2\u201d\u00e2\u201d\u00e2\u201d\u00e2\u201d\u00e2\u201d\u00e2\u201d\u00e2\u201d\u00e2\u201d\u00e2\u201d\u00e2\u201d\u00e2\u201d\u00e2\u201d\u00e2\u201d\u00e2\u201d\u00e2\u201d\u00e2\u201d\u00e2\u201d\nPrimary Method: "

/-- Header of the observations block (lines 306-308). -/
def observationsHeader : String :=
  "\n\u011f\u0178\u201c ADDITIONAL OBSERVATIONS\n\u00e2\u201d\u00e2\u201d\u00e2\u201d\u00e2\u201d\u00e2\u201d\u00e2\u201d\u00e2\u201d\u00e2\u201d\u00e2\u201d\u00e2\u201d\u00e2\u201d\u00e2\u201d\u00e2\u201d\u00e2\u201d\u00e2\u201d\u00e2\u201d\u00e2\u201d\u00e2\u201d\u00e2\u201d\u00e2\u201d\u00e2\u201d\u00e2\u201d\u00e2\u201d\u00e2\u201d\u00e2\u201d\u00e2\u201d\u00e2\u201d\u00e2\u201d\u00e2\u201d\u00e2\u201d\u00e2\u201d\u00e2\u201d\u00e2\u201d\u00e2\u201d\u00e2\u201d\u00e2\u201d\u00e2\u201d\u00e2\u201d\u00e2\u201d\u00e2\u201d\u00e2\u201d\u00e2\u201d\u00e2\u201d\u00e2\u201d\u00e2\u201d\u00e2\u201d\u00e2\u201d\u00e2\u201d\u00e2\u201d\u00e2\u201d\u00e2\u201d\u00e2\u201d\u00e2\u201d\u00e2\u201d\u00e2\u201d\u00e2\u201d\n"

/-- The report footer (lines 310-312). -/
def reportFooter : String :=
  "\n\n\u00e2\u2022\u00e2\u2022\u00e2\u2022\u00e2\u2022\u00e2\u2022\u00e2\u2022\u00e2\u2022\u00e2\u2022\u00e2\u2022\u00e2\u2022\u00e2\u2022\u00e2\u2022\u00e2\u2022\u00e2\u2022\u00e2\u2022\u00e2\u2022\u00e2\u2022\u00e2\u2022\u00e2\u2022\u00e2\u2022\u00e2\u2022\u00e2\u2022\u00e2\u2022\u00e2\u2022\u00e2\u2022\u00e2\u2022\u00e2\u2022\u00e2\u2022\u00e2\u2022\u00e2\u2022\u00e2\u2022\u00e2\u2022\u00e2\u2022\u00e2\u2022\u00e2\u2022\u00e2\u2022\u00e2\u2022\u00e2\u2022\u00e2\u2022\u00e2\u2022\u00e2\u2022\u00e2\u2022\u00e2\u2022\u00e2\u2022\u00e2\u2022\u00e2\u2022\u00e2\u2022\u00e2\u2022\u00e2\u2022\u00e2\u2022\u00e2\u2022\u00e2\u2022\u00e2\u2022\u00e2\u2022\u00e2\u2022\u00e2\u2022\u00e2\u2022\u00e2\u2022\u00e2\u2022\u00e2\u2022\n"

/-- `generate_processing_report` (lines 256-314): the fixed-layout report.
`now` stands for `datetime.now().strftime("%Y-%m-%d %H:%M:%S")` in the
header; interpolating a `(str, Enum)` member renders its string value. -/
def generateProcessingReport (now : String) (a : EWasteAnalysis) : String :=
  reportHeaderA ++ now ++ reportHeaderB ++ a.object_type.value ++
  "\nBrand: " ++ pyOrStr a.brand "Not identified" ++
  "\nModel: " ++ pyOrStr a.model "Not identified" ++
  "\nCondition: " ++ a.condition.value ++
  "\nConfidence: " ++ formatPct1 a.confidence_score ++
  sectionSafety ++ a.shred_safety.value ++
  "\nDisposal Category: " ++ a.disposal_category ++ "\n" ++
  safetyBlock a.safety_notes ++
  hazardHeader ++ hazardSection a.hazardous_components ++
  sectionProcessing ++ a.primary_processing.value ++
  "\n\nProcessing Notes:\n" ++ a.processing_notes ++ "\n" ++
  preprocBlock a.preprocessing_steps ++
  observationsHeader ++ a.observations ++ reportFooter

/-- Does the first list start with the second? -/
def startsWithCh : List Char → List Char → Bool
  | _, [] => true
  | [], _ :: _ => false
  | c :: cs, d :: ds => c == d && startsWithCh cs ds

/-- Does the first list contain the second as a contiguous segment? -/
def containsCh : List Char → List Char → Bool
  | [], pat => pat.isEmpty
  | c :: rest, pat => startsWithCh (c :: rest) pat || containsCh rest pat

/-- Substring occurrence test on strings. -/
def strContains (s pat : String) : Bool := containsCh s.data pat.data

/-- A response object carrying only the nine required fields, with
well-typed values; the optional fields (`brand`, `model`, `safety_notes`,
`preprocessing_steps`) are absent. -/
def canonObjRequired (ot : ObjectCategory) (cond : ConditionStatus)
    (ss : ShredSafety) (pm : ProcessingMethod) (pn : String)
    (hz : HazardousComponents) (dc obs : String) (cs : ℚ) : Json :=
  Json.obj [("object_type", .str ot.value),
            ("condition", .str cond.value),
            ("shred_safety", .str ss.value),
            ("primary_processing", .str pm.value),
            ("processing_notes", .str pn),
            ("hazardous_components", hz.toJson),
            ("disposal_category", .str dc),
            ("observations", .str obs),
            ("confidence_score", .num cs)]

/-- A concrete analysis record (a smartphone with a battery), used to
instantiate the hypotheses of the theorems below at a concrete input. -/
def sampleAnalysis : EWasteAnalysis :=
  { object_type := .SMARTPHONE, brand := none, model := some "",
    condition := .INTACT, shred_safety := .DO_NOT_SHRED,
    safety_notes := [], primary_processing := .BATTERY_REMOVAL,
    preprocessing_steps := [], processing_notes := "Remove battery first",
    hazardous_components :=
      { has_battery := true, has_mercury := false, has_lead := false,
        has_capacitors := false, has_toner := false,
        has_data_storage := false },
    disposal_category := "Hazardous", observations := "Cracked screen",
    confidence_score := 0.87 }

/-- A mixed record: brand absent (`None`) while the model is identified. -/
def sampleBrandBlank : EWasteAnalysis :=
  { sampleAnalysis with brand := none, model := some "Galaxy S4" }

/-- A mixed record: brand identified while the model is the empty string. -/
def sampleModelBlank : EWasteAnalysis :=
  { sampleAnalysis with brand := some "Samsung", model := some "" }

/-- Binding a constantly-failing continuation fails. -/
theorem opt_bind_const_none {α β : Type} (x : Option α) :
    x.bind (fun _ => (none : Option β)) = none := by cases x <;> rfl

/-- Enum lookup by value inverts `value` on `ObjectCategory`. -/
theorem objectCategory_fromValue_value (e : ObjectCategory) :
    ObjectCategory.fromValue? e.value = some e := by cases e <;> rfl

/-- Enum lookup by value inverts `value` on `ConditionStatus`. -/
theorem conditionStatus_fromValue_value (e : ConditionStatus) :
    ConditionStatus.fromValue? e.value = some e := by cases e <;> rfl

/-- Enum lookup by value inverts `value` on `ShredSafety`. -/
theorem shredSafety_fromValue_value (e : ShredSafety) :
    ShredSafety.fromValue? e.value = some e := by cases e <;> rfl

/-- Enum lookup by value inverts `value` on `ProcessingMethod`. -/
theorem processingMethod_fromValue_value (e : ProcessingMethod) :
    ProcessingMethod.fromValue? e.value = some e := by cases e <;> rfl

/-- Decoding a list of JSON strings recovers the strings. -/
theorem strList?_map (l : List String) : strList? (l.map Json.str) = some l := by
  induction l with
  | nil => rfl
  | cons x xs ih => simp [strList?, Json.asStr?, ih]

/-- Nested-model validation inverts the hazard-flag encoding. -/
theorem HazardousComponents.fromJson?_toJson (h : HazardousComponents) :
    HazardousComponents.fromJson? h.toJson = some h := by
  obtain ⟨b1, b2, b3, b4, b5, b6⟩ := h
  rfl

/-- A list starting with `pat` passes the `startsWithCh` test for `pat`. -/
theorem startsWithCh_append (pat q : List Char) :
    startsWithCh (pat ++ q) pat = true := by
  induction pat with
  | nil => cases q <;> rfl
  | cons c cs ih => simp [startsWithCh, ih]

/-- A list of the form `p ++ pat ++ q` contains `pat`. -/
theorem containsCh_append (p pat q : List Char) :
    containsCh (p ++ pat ++ q) pat = true := by
  induction p with
  | nil =>
    cases pat with
    | nil => cases q <;> simp [containsCh, startsWithCh]
    | cons d ds =>
      simp only [containsCh, List.nil_append, Bool.or_eq_true]
      exact Or.inl (startsWithCh_append (d :: ds) q)
  | cons c cs ih =>
    simp only [containsCh, List.cons_append, Bool.or_eq_true]
    exact Or.inr (by simpa [List.append_assoc] using ih)

/-- A string of the form `p ++ pat ++ q` contains `pat`. -/
theorem strContains_of_append (s p pat q : String) (h : s = p ++ pat ++ q) :
    strContains s pat = true := by
  subst h
  simpa [strContains, String.data_append] using
    containsCh_append p.data pat.data q.data

/-- Round trip of `EWasteAnalysis.fromJson?` over the canonical
well-formed object: shared by the roundtrip and range theorems below. -/
theorem fromJson?_canonObj (ot : ObjectCategory) (br md : Option String)
    (cond : ConditionStatus) (ss : ShredSafety) (sn : List String)
    (pm : ProcessingMethod) (ps : List String) (pn : String)
    (hz : HazardousComponents) (dc obs : String) (cs : ℚ) :
    EWasteAnalysis.fromJson? (canonObj ot br md cond ss sn pm ps pn hz dc obs cs) =
      some { object_type := ot, brand := br, model := md, condition := cond,
             shred_safety := ss, safety_notes := sn, primary_processing := pm,
             preprocessing_steps := ps, processing_notes := pn,
             hazardous_components := hz, disposal_category := dc,
             observations := obs, confidence_score := cs } := by
  have g1 : getReqStr (canonObj ot br md cond ss sn pm ps pn hz dc obs cs) "object_type" = some ot.value := rfl
  have g2 : getOptStr (canonObj ot br md cond ss sn pm ps pn hz dc obs cs) "brand" = some br := by cases br <;> rfl
  have g3 : getOptStr (canonObj ot br md cond ss sn pm ps pn hz dc obs cs) "model" = some md := by cases md <;> rfl
  have g4 : getReqStr (canonObj ot br md cond ss sn pm ps pn hz dc obs cs) "condition" = some cond.value := rfl
  have g5 : getReqStr (canonObj ot br md cond ss sn pm ps pn hz dc obs cs) "shred_safety" = some ss.value := rfl
  have g6 : getStrList (canonObj ot br md cond ss sn pm ps pn hz dc obs cs) "safety_notes" = some sn := strList?_map sn
  have g7 : getReqStr (canonObj ot br md cond ss sn pm ps pn hz dc obs cs) "primary_processing" = some pm.value := rfl
  have g8 : getStrList (canonObj ot br md cond ss sn pm ps pn hz dc obs cs) "preprocessing_steps" = some ps := strList?_map ps
  have g9 : getReqStr (canonObj ot br md cond ss sn pm ps pn hz dc obs cs) "processing_notes" = some pn := rfl
  have g10 : (canonObj ot br md cond ss sn pm ps pn hz dc obs cs).lookup "hazardous_components" = some hz.toJson := rfl
  have g11 : getReqStr (canonObj ot br md cond ss sn pm ps pn hz dc obs cs) "disposal_category" = some dc := rfl
  have g12 : getReqStr (canonObj ot br md cond ss sn pm ps pn hz dc obs cs) "observations" = some obs := rfl
  have g13 : getReqNum (canonObj ot br md cond ss sn pm ps pn hz dc obs cs) "confidence_score" = some cs := rfl
  simp only [EWasteAnalysis.fromJson?, g1, g2, g3, g4, g5, g6, g7, g8, g9,
    g10, g11, g12, g13, Option.some_bind, objectCategory_fromValue_value,
    conditionStatus_fromValue_value, shredSafety_fromValue_value,
    processingMethod_fromValue_value, HazardousComponents.fromJson?_toJson,
    Option.map_some']

/-- Claim C1: for each of the four enumerations, the enum list that the
schema builder emits for the corresponding property is exactly the list of
that enumeration's member values, in order: the schema's `enum` array is
the value image of the member list, the value image is the literal list of
labels in Python declaration order, and the member list is exhaustive. -/
theorem schema_enum_lists_match_enums :
    (createAnalysisSchema.lookupPath ["properties", "object_type", "enum"] =
       some (.arr (ObjectCategory.members.map fun e => .str e.value)) ∧
     ObjectCategory.members.map ObjectCategory.value =
       ["Smartphone", "Tablet", "Laptop", "Desktop Computer", "Monitor",
        "Television", "Gaming Console", "Smartwatch", "Earbuds/Headphones",
        "Digital Camera", "Circuit Board", "Hard Drive", "RAM Module",
        "CPU/Processor", "Graphics Card", "Power Supply Unit",
        "Solid State Drive", "Motherboard", "Lithium-ion Battery",
        "Alkaline Battery", "Lead-acid Battery", "Button Cell Battery",
        "Laptop Battery Pack", "Phone Battery", "Cables/Wires",
        "Charger/Adapter", "Keyboard", "Mouse", "USB Device/Flash Drive",
        "Printer", "Scanner", "Router/Modem", "Speaker System", "Microwave",
        "Mixed E-waste", "Unknown Device"] ∧
     (∀ e : ObjectCategory, e ∈ ObjectCategory.members)) ∧
    (createAnalysisSchema.lookupPath ["properties", "condition", "enum"] =
       some (.arr (ConditionStatus.members.map fun e => .str e.value)) ∧
     ConditionStatus.members.map ConditionStatus.value =
       ["Intact", "Broken", "Partially Damaged", "Severely Damaged",
        "Burned/Melted", "Water Damaged"] ∧
     (∀ e : ConditionStatus, e ∈ ConditionStatus.members)) ∧
    (createAnalysisSchema.lookupPath ["properties", "shred_safety", "enum"] =
       some (.arr (ShredSafety.members.map fun e => .str e.value)) ∧
     ShredSafety.members.map ShredSafety.value =
       ["Safe to Shred", "Do Not Shred",
        "Requires Preprocessing Before Shredding"] ∧
     (∀ e : ShredSafety, e ∈ ShredSafety.members)) ∧
    (createAnalysisSchema.lookupPath ["properties", "primary_processing", "enum"] =
       some (.arr (ProcessingMethod.members.map fun e => .str e.value)) ∧
     ProcessingMethod.members.map ProcessingMethod.value =
       ["Shred", "Manual Disassembly", "Battery Removal Required",
        "Data Destruction Required", "Specialized Recycling",
        "Hazardous Material Handling"] ∧
     (∀ e : ProcessingMethod, e ∈ ProcessingMethod.members)) := by
  refine ⟨⟨rfl, rfl, ?_⟩, ⟨rfl, rfl, ?_⟩, ⟨rfl, rfl, ?_⟩, ⟨rfl, rfl, ?_⟩⟩ <;>
    intro e <;> cases e <;> decide

/-- Claim C2: a JSON object supplying every field with a value of its
declared type constructs successfully and every field round-trips
unchanged; an object supplying exactly the nine required fields also
constructs, the absent optional fields taking their declared defaults. -/
theorem wellformed_json_construction_roundtrips (ot : ObjectCategory)
    (br md : Option String) (cond : ConditionStatus) (ss : ShredSafety)
    (sn : List String) (pm : ProcessingMethod) (ps : List String)
    (pn : String) (hz : HazardousComponents) (dc obs : String) (cs : ℚ) :
    EWasteAnalysis.fromJson? (canonObj ot br md cond ss sn pm ps pn hz dc obs cs) =
      some { object_type := ot, brand := br, model := md, condition := cond,
             shred_safety := ss, safety_notes := sn, primary_processing := pm,
             preprocessing_steps := ps, processing_notes := pn,
             hazardous_components := hz, disposal_category := dc,
             observations := obs, confidence_score := cs } ∧
    EWasteAnalysis.fromJson? (canonObjRequired ot cond ss pm pn hz dc obs cs) =
      some { object_type := ot, brand := none, model := none, condition := cond,
             shred_safety := ss, safety_notes := [], primary_processing := pm,
             preprocessing_steps := [], processing_notes := pn,
             hazardous_components := hz, disposal_category := dc,
             observations := obs, confidence_score := cs } := by
  refine ⟨fromJson?_canonObj ot br md cond ss sn pm ps pn hz dc obs cs, ?_⟩
  have g1 : getReqStr (canonObjRequired ot cond ss pm pn hz dc obs cs) "object_type" = some ot.value := rfl
  have g2 : getOptStr (canonObjRequired ot cond ss pm pn hz dc obs cs) "brand" = some none := rfl
  have g3 : getOptStr (canonObjRequired ot cond ss pm pn hz dc obs cs) "model" = some none := rfl
  have g4 : getReqStr (canonObjRequired ot cond ss pm pn hz dc obs cs) "condition" = some cond.value := rfl
  have g5 : getReqStr (canonObjRequired ot cond ss pm pn hz dc obs cs) "shred_safety" = some ss.value := rfl
  have g6 : getStrList (canonObjRequired ot cond ss pm pn hz dc obs cs) "safety_notes" = some [] := rfl
  have g7 : getReqStr (canonObjRequired ot cond ss pm pn hz dc obs cs) "primary_processing" = some pm.value := rfl
  have g8 : getStrList (canonObjRequired ot cond ss pm pn hz dc obs cs) "preprocessing_steps" = some [] := rfl
  have g9 : getReqStr (canonObjRequired ot cond ss pm pn hz dc obs cs) "processing_notes" = some pn := rfl
  have g10 : (canonObjRequired ot cond ss pm pn hz dc obs cs).lookup "hazardous_components" = some hz.toJson := rfl
  have g11 : getReqStr (canonObjRequired ot cond ss pm pn hz dc obs cs) "disposal_category" = some dc := rfl
  have g12 : getReqStr (canonObjRequired ot cond ss pm pn hz dc obs cs) "observations" = some obs := rfl
  have g13 : getReqNum (canonObjRequired ot cond ss pm pn hz dc obs cs) "confidence_score" = some cs := rfl
  simp only [EWasteAnalysis.fromJson?, g1, g2, g3, g4, g5, g6, g7, g8, g9,
    g10, g11, g12, g13, Option.some_bind, objectCategory_fromValue_value,
    conditionStatus_fromValue_value, shredSafety_fromValue_value,
    processingMethod_fromValue_value, HazardousComponents.fromJson?_toJson,
    Option.map_some']

/-- Construction fails when `object_type` cannot be looked up. -/
theorem fromJson?_none_object_type (j : Json)
    (h : j.lookup "object_type" = none) : EWasteAnalysis.fromJson? j = none := by
  simp only [EWasteAnalysis.fromJson?, getReqStr, h, Option.none_bind,
    opt_bind_const_none]

/-- Construction fails when `condition` cannot be looked up. -/
theorem fromJson?_none_condition (j : Json)
    (h : j.lookup "condition" = none) : EWasteAnalysis.fromJson? j = none := by
  simp only [EWasteAnalysis.fromJson?, getReqStr, h, Option.none_bind,
    opt_bind_const_none]

/-- Construction fails when `shred_safety` cannot be looked up. -/
theorem fromJson?_none_shred_safety (j : Json)
    (h : j.lookup "shred_safety" = none) : EWasteAnalysis.fromJson? j = none := by
  simp only [EWasteAnalysis.fromJson?, getReqStr, h, Option.none_bind,
    opt_bind_const_none]

/-- Construction fails when `primary_processing` cannot be looked up. -/
theorem fromJson?_none_primary_processing (j : Json)
    (h : j.lookup "primary_processing" = none) :
    EWasteAnalysis.fromJson? j = none := by
  simp only [EWasteAnalysis.fromJson?, getReqStr, h, Option.none_bind,
    opt_bind_const_none]

/-- Construction fails when `processing_notes` cannot be looked up. -/
theorem fromJson?_none_processing_notes (j : Json)
    (h : j.lookup "processing_notes" = none) :
    EWasteAnalysis.fromJson? j = none := by
  simp only [EWasteAnalysis.fromJson?, getReqStr, h, Option.none_bind,
    opt_bind_const_none]

/-- Construction fails when `hazardous_components` cannot be looked up. -/
theorem fromJson?_none_hazardous_components (j : Json)
    (h : j.lookup "hazardous_components" = none) :
    EWasteAnalysis.fromJson? j = none := by
  simp only [EWasteAnalysis.fromJson?, h, Option.none_bind,
    opt_bind_const_none]

/-- Construction fails when `disposal_category` cannot be looked up. -/
theorem fromJson?_none_disposal_category (j : Json)
    (h : j.lookup "disposal_category" = none) :
    EWasteAnalysis.fromJson? j = none := by
  simp only [EWasteAnalysis.fromJson?, getReqStr, h, Option.none_bind,
    opt_bind_const_none]

/-- Construction fails when `observations` cannot be looked up. -/
theorem fromJson?_none_observations (j : Json)
    (h : j.lookup "observations" = none) :
    EWasteAnalysis.fromJson? j = none := by
  simp only [EWasteAnalysis.fromJson?, getReqStr, h, Option.none_bind,
    opt_bind_const_none]

/-- Construction fails when `confidence_score` cannot be looked up. -/
theorem fromJson?_none_confidence_score (j : Json)
    (h : j.lookup "confidence_score" = none) :
    EWasteAnalysis.fromJson? j = none := by
  simp only [EWasteAnalysis.fromJson?, getReqNum, h, Option.none_bind,
    Option.map_none', opt_bind_const_none]

/-- Lookup of an absent key in a JSON object fails. -/
theorem lookup_obj_none (fs : List (String × Json)) (k : String)
    (h : ∀ kv ∈ fs, kv.1 ≠ k) : (Json.obj fs).lookup k = none := by
  simp only [Json.lookup, Option.map_eq_none', List.find?_eq_none]
  intro kv hkv
  simpa using h kv hkv

/-- Claim C3: a JSON object from which one of the required fields of
`EWasteAnalysis` is missing fails record construction (raises a
validation error) rather than producing a record. -/
theorem missing_required_field_fails_construction
    (fs : List (String × Json)) (r : String) (hr : r ∈ requiredFields)
    (habsent : ∀ kv ∈ fs, kv.1 ≠ r) :
    EWasteAnalysis.fromJson? (Json.obj fs) = none := by
  have hl : (Json.obj fs).lookup r = none := lookup_obj_none fs r habsent
  fin_cases hr
  · exact fromJson?_none_object_type _ hl
  · exact fromJson?_none_condition _ hl
  · exact fromJson?_none_shred_safety _ hl
  · exact fromJson?_none_primary_processing _ hl
  · exact fromJson?_none_processing_notes _ hl
  · exact fromJson?_none_hazardous_components _ hl
  · exact fromJson?_none_disposal_category _ hl
  · exact fromJson?_none_observations _ hl
  · exact fromJson?_none_confidence_score _ hl

/-- Witness for C3: the object omitting `confidence_score` (here with no
fields at all) fails construction. -/
theorem missing_required_field_fails_construction_witness :
    "confidence_score" ∈ requiredFields ∧
    EWasteAnalysis.fromJson? (Json.obj []) = none :=
  ⟨by decide,
   missing_required_field_fails_construction [] "confidence_score"
     (by decide) (by intro kv hkv; cases hkv)⟩

set_option maxRecDepth 40000 in
/-- Counterexample to C4: with the prompt file missing and a non-empty
additional context, the submitted prompt is the bare default prompt — it
is not the default prompt with the context appended, and the context text
occurs nowhere in it. The `if additional_context:` append sits inside the
`try` block, so the `FileNotFoundError` handler bypasses it. -/
theorem fallback_prompt_ignores_additional_context :
    resolvePrompt (fun _ => none) "prompts/prompt_main.md" "the device is wet" =
      defaultPrompt ∧
    defaultPrompt ≠
      defaultPrompt ++ "\n\nAdditional context: " ++ "the device is wet" ∧
    strContains
      (resolvePrompt (fun _ => none) "prompts/prompt_main.md" "the device is wet")
      "the device is wet" = false := by
  refine ⟨rfl, ?_, by decide⟩
  decide

/-- Claim C4 (amended): the additional context is appended to the prompt
only when the prompt file is readable; when the file is unavailable the
submitted prompt is the built-in default with the context dropped. -/
theorem additional_context_appended_only_on_prompt_file_read
    (fs : String → Option String) (promptFile ctx content : String)
    (hc : ctx ≠ "") :
    (fs promptFile = some content →
      resolvePrompt fs promptFile ctx =
        content ++ "\n\nAdditional context: " ++ ctx) ∧
    (fs promptFile = none →
      resolvePrompt fs promptFile ctx = defaultPrompt) := by
  constructor <;> intro h <;> simp [resolvePrompt, h, hc]

/-- Witness for the amended C4, at a readable file and at a missing one. -/
theorem additional_context_appended_only_on_prompt_file_read_witness :
    ("wet" : String) ≠ "" ∧
    resolvePrompt (fun _ => some "base prompt") "prompts/prompt_main.md" "wet" =
      "base prompt" ++ "\n\nAdditional context: " ++ "wet" ∧
    resolvePrompt (fun _ => none) "prompts/prompt_main.md" "wet" =
      defaultPrompt :=
  ⟨by decide,
   (additional_context_appended_only_on_prompt_file_read
      (fun _ => some "base prompt") "prompts/prompt_main.md" "wet"
      "base prompt" (by decide)).1 rfl,
   (additional_context_appended_only_on_prompt_file_read
      (fun _ => none) "prompts/prompt_main.md" "wet"
      "base prompt" (by decide)).2 rfl⟩

/-- Claim C5: for every nonexistent prompt file path, the resolved prompt
equals the built-in default prompt text; resolution is a total function,
so no exception propagates and execution continues. -/
theorem missing_prompt_file_uses_default_prompt
    (fs : String → Option String) (promptFile ctx : String)
    (h : fs promptFile = none) :
    resolvePrompt fs promptFile ctx = defaultPrompt := by
  simp [resolvePrompt, h]

/-- Witness for C5 at the default prompt path on an empty filesystem. -/
theorem missing_prompt_file_uses_default_prompt_witness :
    ((fun _ => none) : String → Option String) "prompts/prompt_main.md" = none ∧
    resolvePrompt (fun _ => none) "prompts/prompt_main.md" "" = defaultPrompt :=
  ⟨rfl,
   missing_prompt_file_uses_default_prompt (fun _ => none)
     "prompts/prompt_main.md" "" rfl⟩

/-- Claim C6: for a record whose hazard flags are battery-only, the six
hazard lines of the report contain exactly one line marked positive
(`YES`) and exactly five marked negative (`No`); the report embeds exactly
this block of lines. -/
theorem battery_only_hazard_line_counts (now : String) (a : EWasteAnalysis)
    (h : a.hazardous_components =
      { has_battery := true, has_mercury := false, has_lead := false,
        has_capacitors := false, has_toner := false,
        has_data_storage := false }) :
    ((hazardLines a.hazardous_components).countP
        (fun l => strContains l "YES") = 1 ∧
     (hazardLines a.hazardous_components).countP
        (fun l => strContains l "No") = 5) ∧
    ∃ p q, generateProcessingReport now a =
      p ++ hazardSection a.hazardous_components ++ q := by
  constructor
  · rw [h]; exact ⟨by decide, by decide⟩
  · refine ⟨reportHeaderA ++ now ++ reportHeaderB ++ a.object_type.value ++
      "\nBrand: " ++ pyOrStr a.brand "Not identified" ++
      "\nModel: " ++ pyOrStr a.model "Not identified" ++
      "\nCondition: " ++ a.condition.value ++
      "\nConfidence: " ++ formatPct1 a.confidence_score ++
      sectionSafety ++ a.shred_safety.value ++
      "\nDisposal Category: " ++ a.disposal_category ++ "\n" ++
      safetyBlock a.safety_notes ++ hazardHeader,
      sectionProcessing ++ a.primary_processing.value ++
      "\n\nProcessing Notes:\n" ++ a.processing_notes ++ "\n" ++
      preprocBlock a.preprocessing_steps ++
      observationsHeader ++ a.observations ++ reportFooter, ?_⟩
    simp only [generateProcessingReport, String.append_assoc]

/-- Witness for C6 at the concrete battery-only sample record. -/
theorem battery_only_hazard_line_counts_witness :
    sampleAnalysis.hazardous_components =
      { has_battery := true, has_mercury := false, has_lead := false,
        has_capacitors := false, has_toner := false,
        has_data_storage := false } ∧
    (((hazardLines sampleAnalysis.hazardous_components).countP
        (fun l => strContains l "YES") = 1 ∧
      (hazardLines sampleAnalysis.hazardous_components).countP
        (fun l => strContains l "No") = 5) ∧
     ∃ p q, generateProcessingReport "2025-01-01 00:00:00" sampleAnalysis =
       p ++ hazardSection sampleAnalysis.hazardous_components ++ q) :=
  ⟨rfl, battery_only_hazard_line_counts "2025-01-01 00:00:00" sampleAnalysis rfl⟩

/-- Claim C7: a record whose confidence score is 0.87 renders the
confidence as the string `87.0%`, and the report carries it on the
`Confidence:` line. -/
theorem confidence_087_renders_87_0_percent (now : String)
    (a : EWasteAnalysis) (h : a.confidence_score = 0.87) :
    formatPct1 a.confidence_score = "87.0%" ∧
    ∃ p q, generateProcessingReport now a =
      p ++ "\nConfidence: " ++ "87.0%" ++ q := by
  have h87 : formatPct1 (0.87 : ℚ) = "87.0%" := by
    rw [show (0.87 : ℚ) = mkRat 87 100 by rw [Rat.mkRat_eq_div]; norm_num]
    decide
  have hf : formatPct1 a.confidence_score = "87.0%" := by rw [h]; exact h87
  refine ⟨hf, reportHeaderA ++ now ++ reportHeaderB ++ a.object_type.value ++
    "\nBrand: " ++ pyOrStr a.brand "Not identified" ++
    "\nModel: " ++ pyOrStr a.model "Not identified" ++
    "\nCondition: " ++ a.condition.value,
    sectionSafety ++ a.shred_safety.value ++
    "\nDisposal Category: " ++ a.disposal_category ++ "\n" ++
    safetyBlock a.safety_notes ++ hazardHeader ++
    hazardSection a.hazardous_components ++
    sectionProcessing ++ a.primary_processing.value ++
    "\n\nProcessing Notes:\n" ++ a.processing_notes ++ "\n" ++
    preprocBlock a.preprocessing_steps ++
    observationsHeader ++ a.observations ++ reportFooter, ?_⟩
  simp only [generateProcessingReport, hf, String.append_assoc]

/-- Witness for C7 at the sample record, whose confidence is 0.87. -/
theorem confidence_087_renders_87_0_percent_witness :
    sampleAnalysis.confidence_score = 0.87 ∧
    (formatPct1 sampleAnalysis.confidence_score = "87.0%" ∧
     ∃ p q, generateProcessingReport "2025-01-01 00:00:00" sampleAnalysis =
       p ++ "\nConfidence: " ++ "87.0%" ++ q) :=
  ⟨rfl, confidence_087_renders_87_0_percent "2025-01-01 00:00:00"
    sampleAnalysis rfl⟩

/-- Claim C8: the declared 0-1 bound on `confidence_score` is not
enforced: construction from an otherwise well-formed object still succeeds
when the score lies outside the interval, and the record stores the
out-of-range value unchanged. -/
theorem out_of_range_confidence_accepted (ot : ObjectCategory)
    (br md : Option String) (cond : ConditionStatus) (ss : ShredSafety)
    (sn : List String) (pm : ProcessingMethod) (ps : List String)
    (pn : String) (hz : HazardousComponents) (dc obs : String) (cs : ℚ)
    (h : cs < 0 ∨ 1 < cs) :
    EWasteAnalysis.fromJson? (canonObj ot br md cond ss sn pm ps pn hz dc obs cs) =
      some { object_type := ot, brand := br, model := md, condition := cond,
             shred_safety := ss, safety_notes := sn, primary_processing := pm,
             preprocessing_steps := ps, processing_notes := pn,
             hazardous_components := hz, disposal_category := dc,
             observations := obs, confidence_score := cs } :=
  fromJson?_canonObj ot br md cond ss sn pm ps pn hz dc obs cs

/-- Witness for C8 at the concrete out-of-range score 5/2 = 2.5. -/
theorem out_of_range_confidence_accepted_witness :
    ((1 : ℚ) < mkRat 5 2) ∧
    EWasteAnalysis.fromJson?
      (canonObj .SMARTPHONE none none .INTACT .SAFE_TO_SHRED [] .SHRED []
        "shred whole" ⟨false, false, false, false, false, false⟩
        "Standard" "none" (mkRat 5 2)) =
      some { object_type := .SMARTPHONE, brand := none, model := none,
             condition := .INTACT, shred_safety := .SAFE_TO_SHRED,
             safety_notes := [], primary_processing := .SHRED,
             preprocessing_steps := [], processing_notes := "shred whole",
             hazardous_components :=
               ⟨false, false, false, false, false, false⟩,
             disposal_category := "Standard", observations := "none",
             confidence_score := mkRat 5 2 } :=
  ⟨by decide,
   out_of_range_confidence_accepted .SMARTPHONE none none .INTACT
     .SAFE_TO_SHRED [] .SHRED [] "shred whole"
     ⟨false, false, false, false, false, false⟩ "Standard" "none"
     (mkRat 5 2) (Or.inr (by decide))⟩

/-- Claim C9: the report renderer is deterministic given the input record
and the timestamp: equal records and equal timestamps yield identical
report strings. -/
theorem report_deterministic (a₁ a₂ : EWasteAnalysis) (ts₁ ts₂ : String)
    (ha : a₁ = a₂) (ht : ts₁ = ts₂) :
    generateProcessingReport ts₁ a₁ = generateProcessingReport ts₂ a₂ := by
  rw [ha, ht]

/-- Witness for C9 at the sample record and a fixed timestamp. -/
theorem report_deterministic_witness :
    sampleAnalysis = sampleAnalysis ∧
    ("2025-01-01 00:00:00" : String) = "2025-01-01 00:00:00" ∧
    generateProcessingReport "2025-01-01 00:00:00" sampleAnalysis =
      generateProcessingReport "2025-01-01 00:00:00" sampleAnalysis :=
  ⟨rfl, rfl,
   report_deterministic sampleAnalysis sampleAnalysis
     "2025-01-01 00:00:00" "2025-01-01 00:00:00" rfl rfl⟩

/-- Claim C10: per field, a record whose brand (or model) is absent
(`None`) or the empty string renders that field as the sentinel
`Not identified` — the other field is unconstrained, and the empty string
collapses to the sentinel exactly like an absent value. -/
theorem blank_brand_model_render_not_identified (now : String)
    (a : EWasteAnalysis) :
    (a.brand = none ∨ a.brand = some "" →
      pyOrStr a.brand "Not identified" = "Not identified" ∧
      ∃ p q, generateProcessingReport now a =
        p ++ "\nBrand: " ++ "Not identified" ++ q) ∧
    (a.model = none ∨ a.model = some "" →
      pyOrStr a.model "Not identified" = "Not identified" ∧
      ∃ p q, generateProcessingReport now a =
        p ++ "\nModel: " ++ "Not identified" ++ q) := by
  constructor
  · intro hb
    have eb : pyOrStr a.brand "Not identified" = "Not identified" := by
      rcases hb with h | h <;> rw [h] <;> rfl
    refine ⟨eb, reportHeaderA ++ now ++ reportHeaderB ++ a.object_type.value,
      "\nModel: " ++ pyOrStr a.model "Not identified" ++
      "\nCondition: " ++ a.condition.value ++
      "\nConfidence: " ++ formatPct1 a.confidence_score ++
      sectionSafety ++ a.shred_safety.value ++
      "\nDisposal Category: " ++ a.disposal_category ++ "\n" ++
      safetyBlock a.safety_notes ++ hazardHeader ++
      hazardSection a.hazardous_components ++
      sectionProcessing ++ a.primary_processing.value ++
      "\n\nProcessing Notes:\n" ++ a.processing_notes ++ "\n" ++
      preprocBlock a.preprocessing_steps ++
      observationsHeader ++ a.observations ++ reportFooter, ?_⟩
    simp only [generateProcessingReport, eb, String.append_assoc]
  · intro hm
    have em : pyOrStr a.model "Not identified" = "Not identified" := by
      rcases hm with h | h <;> rw [h] <;> rfl
    refine ⟨em, reportHeaderA ++ now ++ reportHeaderB ++ a.object_type.value ++
      "\nBrand: " ++ pyOrStr a.brand "Not identified",
      "\nCondition: " ++ a.condition.value ++
      "\nConfidence: " ++ formatPct1 a.confidence_score ++
      sectionSafety ++ a.shred_safety.value ++
      "\nDisposal Category: " ++ a.disposal_category ++ "\n" ++
      safetyBlock a.safety_notes ++ hazardHeader ++
      hazardSection a.hazardous_components ++
      sectionProcessing ++ a.primary_processing.value ++
      "\n\nProcessing Notes:\n" ++ a.processing_notes ++ "\n" ++
      preprocBlock a.preprocessing_steps ++
      observationsHeader ++ a.observations ++ reportFooter, ?_⟩
    simp only [generateProcessingReport, em, String.append_assoc]

/-- Witness for C10 at two mixed records: one with brand `None` but the
model identified, one with the model `""` but the brand identified. -/
theorem blank_brand_model_render_not_identified_witness :
    (sampleBrandBlank.brand = none ∨ sampleBrandBlank.brand = some "") ∧
    (pyOrStr sampleBrandBlank.brand "Not identified" = "Not identified" ∧
     ∃ p q, generateProcessingReport "2025-01-01 00:00:00" sampleBrandBlank =
       p ++ "\nBrand: " ++ "Not identified" ++ q) ∧
    (sampleModelBlank.model = none ∨ sampleModelBlank.model = some "") ∧
    (pyOrStr sampleModelBlank.model "Not identified" = "Not identified" ∧
     ∃ p q, generateProcessingReport "2025-01-01 00:00:00" sampleModelBlank =
       p ++ "\nModel: " ++ "Not identified" ++ q) :=
  ⟨Or.inl rfl,
   (blank_brand_model_render_not_identified "2025-01-01 00:00:00"
      sampleBrandBlank).1 (Or.inl rfl),
   Or.inr rfl,
   (blank_brand_model_render_not_identified "2025-01-01 00:00:00"
      sampleModelBlank).2 (Or.inr rfl)⟩
